/-
Verification of the frame-analyzer core of `l27-frame-grabber`
(src/core/analyzer.ts, with types from src/core/types.ts and the test
helpers of src/core/analyzer.test.ts).

Embedding choices:
* JavaScript numbers are modelled as exact rationals (ℚ); the pixel data
  of an `ImageData` (a `Uint8ClampedArray`) is a `List ℕ` of 8-bit
  channel samples.
* Thrown `Error`s are modelled with `Except AnalyzerError`; the five
  validation messages become the five named error constructors, and the
  runtime `TypeError` raised by `matrix[row]![col] = …` when
  `matrix[row]` is `undefined` becomes the extra constructor
  `.typeError`.
* `Date.now()` is modelled by passing the current clock value `now` as
  an explicit argument; it is used only for the `timestamp` field.
-/
import Mathlib

namespace FrameGrabber

/-- Mirror of the `ImageData` values used by the analyzer: a declared
width and height plus the interleaved RGBA channel data. -/
structure ImageData where
  width : ℕ
  height : ℕ
  data : List ℕ
deriving Repr, DecidableEq

/-- Mirror of `FrameAnalyzerConfig` from src/core/types.ts.  All fields
are JavaScript numbers (here ℚ); `threshold` is optional. -/
structure FrameAnalyzerConfig where
  offsetX : ℚ
  offsetY : ℚ
  windowWidth : ℚ
  windowHeight : ℚ
  rows : ℚ
  columns : ℚ
  threshold : Option ℚ := none
deriving Repr, DecidableEq

/-- Mirror of `FrameAnalysisResult` from src/core/types.ts. -/
structure FrameAnalysisResult where
  matrix : List (List Bool)
  config : FrameAnalyzerConfig
  timestamp : ℤ
deriving Repr, DecidableEq

/-- The five validation failures of `validateConfig`, plus the runtime
`TypeError` that `analyzeFrame` itself can raise when it assigns into a
missing matrix row. -/
inductive AnalyzerError where
  | invalidOffset
  | invalidWindowSize
  | invalidMatrixSize
  | windowOutOfBounds
  | invalidThreshold
  | typeError
deriving Repr, DecidableEq

/-- `calculateBrightness` from analyzer.ts:
`0.2126 * r + 0.7152 * g + 0.0722 * b`. -/
def calculateBrightness (r g b : ℕ) : ℚ :=
  0.2126 * r + 0.7152 * g + 0.0722 * b

/-- A read `data[i] ?? 0` on a typed array: an out-of-range (or
negative) index yields `undefined`, so the fallback 0 is used. -/
def tget (d : List ℕ) (i : ℤ) : ℕ :=
  if 0 ≤ i then d.getD i.toNat 0 else 0

/-- `getPixelAt` from analyzer.ts: reads the R, G, B channels of the
pixel whose integer coordinates are the floors of `x` and `y`. -/
def getPixelAt (imageData : ImageData) (x y : ℚ) : ℕ × ℕ × ℕ :=
  let index : ℤ := (⌊y⌋ * imageData.width + ⌊x⌋) * 4
  (tget imageData.data index, tget imageData.data (index + 1),
    tget imageData.data (index + 2))

/-- `validateConfig` from analyzer.ts: the five checks in source order,
first failing check wins. -/
def validateConfig (config : FrameAnalyzerConfig) (imageData : ImageData) :
    Except AnalyzerError Unit :=
  if config.offsetX < 0 ∨ config.offsetY < 0 then
    .error .invalidOffset
  else if config.windowWidth ≤ 0 ∨ config.windowHeight ≤ 0 then
    .error .invalidWindowSize
  else if config.rows ≤ 0 ∨ config.columns ≤ 0 then
    .error .invalidMatrixSize
  else if config.offsetX + config.windowWidth > (imageData.width : ℚ) ∨
      config.offsetY + config.windowHeight > (imageData.height : ℚ) then
    .error .windowOutOfBounds
  else
    match config.threshold with
    | some t => if t < 0 ∨ t > 255 then .error .invalidThreshold else .ok ()
    | none => .ok ()

/-- JavaScript `ToLength` as used by `Array.from({ length: q })` for the
values reachable here: truncation toward zero, clamped below at 0. -/
def jsToLength (q : ℚ) : ℕ := ⌊q⌋.toNat

/-- Number of iterations of `for (let i = 0; i < q; i++)`: the count of
naturals `n` with `(n : ℚ) < q`. -/
def iterCount (q : ℚ) : ℕ := ⌈q⌉.toNat

/-- JavaScript assignment `row[c] = v` on an array `row`: in range it
overwrites, at `c = row.length` it appends.  (For `c > row.length`
JavaScript would create holes; that case is unreachable here because the
column loop writes indices 0, 1, 2, … in order.) -/
def setIdx (l : List Bool) (c : ℕ) (v : Bool) : List Bool :=
  if c < l.length then l.set c v
  else l ++ List.replicate (c - l.length) false ++ [v]

/-- JavaScript assignment `matrix[r]![c] = v`: if `matrix[r]` is
`undefined` (row index out of range) the property write throws a
`TypeError`; otherwise the row is updated in place. -/
def setCell (m : List (List Bool)) (r c : ℕ) (v : Bool) :
    Except AnalyzerError (List (List Bool)) :=
  match m.get? r with
  | none => .error .typeError
  | some rowList => .ok (m.set r (setIdx rowList c v))

/-- The body of the sampling loop of `analyzeFrame` for one cell:
sample the cell center, read the pixel, compare brightness with the
threshold (inclusive `>=`). -/
def cellValue (imageData : ImageData)
    (offsetX offsetY cellWidth cellHeight threshold : ℚ)
    (row col : ℕ) : Bool :=
  let sampleX := offsetX + ((col : ℚ) + 0.5) * cellWidth
  let sampleY := offsetY + ((row : ℚ) + 0.5) * cellHeight
  let p := getPixelAt imageData sampleX sampleY
  decide (calculateBrightness p.1 p.2.1 p.2.2 ≥ threshold)

/-- `analyzeFrame` from analyzer.ts.  `now` stands for the value
`Date.now()` returns while building the result. -/
def analyzeFrame (now : ℤ) (imageData : ImageData)
    (config : FrameAnalyzerConfig) : Except AnalyzerError FrameAnalysisResult :=
  match validateConfig config imageData with
  | .error e => .error e
  | .ok _ =>
    let threshold := config.threshold.getD 128
    let cellWidth := config.windowWidth / config.columns
    let cellHeight := config.windowHeight / config.rows
    let matrix0 : List (List Bool) :=
      List.replicate (jsToLength config.rows)
        (List.replicate (jsToLength config.columns) false)
    match (List.range (iterCount config.rows)).foldlM (fun m row =>
        (List.range (iterCount config.columns)).foldlM (fun m' col =>
          setCell m' row col
            (cellValue imageData config.offsetX config.offsetY
              cellWidth cellHeight threshold row col)) m) matrix0 with
    | .error e => .error e
    | .ok matrix =>
      .ok { matrix := matrix, config := config, timestamp := now }

/-- `createDefaultConfig` from analyzer.ts: the source ignores both
parameters and returns a hardcoded configuration. -/
def createDefaultConfig (imageWidth imageHeight : ℚ) : FrameAnalyzerConfig :=
  { offsetX := 236
    offsetY := 112
    windowWidth := 168
    windowHeight := 224
    rows := 64
    columns := 42
    threshold := some 128 }

/-- `createTestImageData` from analyzer.test.ts: a uniform RGBA buffer
with every channel set to `fillValue` and alpha 255.  The backing
`Uint8ClampedArray` clamps stored values at 255. -/
def createTestImageData (width height : ℕ) (fillValue : ℕ := 128) : ImageData :=
  { width := width
    height := height
    data := (List.replicate (width * height)
      [min fillValue 255, min fillValue 255, min fillValue 255, 255]).flatten }

/-- Modelled from the spec (sections 4.1 Sampling geometry, Brightness
computation and Threshold decision): the value of grid cell `(r, c)`
stated directly — the relative luminance `0.2126*R + 0.7152*G + 0.0722*B`
of the single pixel at the floor of the cell-center sample point,
compared inclusively against the configured (or default 128) threshold.
This is the spec-side description against which the loop of
`analyzeFrame` is checked. -/
def specCell (imageData : ImageData) (cfg : FrameAnalyzerConfig) (r c : ℕ) : Bool :=
  let sampleX : ℚ := cfg.offsetX + ((c : ℚ) + 0.5) * (cfg.windowWidth / cfg.columns)
  let sampleY : ℚ := cfg.offsetY + ((r : ℚ) + 0.5) * (cfg.windowHeight / cfg.rows)
  let px : ℕ := ⌊sampleX⌋.toNat
  let py : ℕ := ⌊sampleY⌋.toNat
  let base : ℕ := (py * imageData.width + px) * 4
  let lum : ℚ := 0.2126 * (imageData.data.getD base 0 : ℚ)
    + 0.7152 * (imageData.data.getD (base + 1) 0 : ℚ)
    + 0.0722 * (imageData.data.getD (base + 2) 0 : ℚ)
  decide (lum ≥ cfg.threshold.getD 128)

/-! ### List helpers for the sampling loop -/

theorem get_append_len {α : Type} (A : List α) (x : α) (B : List α) :
    (A ++ x :: B).get? A.length = some x := by
  induction A with
  | nil => rfl
  | cons a t ih => exact ih

theorem set_append_len {α : Type} (A : List α) (x : α) (B : List α) (v : α) :
    (A ++ x :: B).set A.length v = A ++ v :: B := by
  induction A with
  | nil => rfl
  | cons a t ih =>
    show a :: (t ++ x :: B).set t.length v = a :: (t ++ v :: B)
    rw [ih]

theorem lt_length_of_get?_eq_some {α : Type} :
    ∀ (m : List α) (r : ℕ) (x : α), m.get? r = some x → r < m.length := by
  intro m
  induction m with
  | nil => intro r x h; cases h
  | cons a t ih =>
    intro r x h
    cases r with
    | zero => simp
    | succ n => exact Nat.succ_lt_succ (ih n x h)

theorem get?_set_self {α : Type} :
    ∀ (m : List α) (r : ℕ) (x : α), r < m.length → (m.set r x).get? r = some x := by
  intro m
  induction m with
  | nil => intro r x h; cases h
  | cons a t ih =>
    intro r x h
    cases r with
    | zero => rfl
    | succ n => exact ih n x (Nat.lt_of_succ_lt_succ h)

theorem set_of_get?_eq_some {α : Type} :
    ∀ (m : List α) (r : ℕ) (x : α), m.get? r = some x → m.set r x = m := by
  intro m
  induction m with
  | nil => intro r x h; cases h
  | cons a t ih =>
    intro r x h
    cases r with
    | zero =>
      have hx : a = x := by simpa using h
      rw [← hx]; rfl
    | succ n =>
      show a :: t.set n x = a :: t
      rw [ih n x h]

/-! ### The sampling loop computes the grid of cell values -/

/-- The inner column loop over a row of length at least `k` overwrites
its first `k` entries with the cell values. -/
theorem foldl_setIdx_range (f : ℕ → Bool) :
    ∀ (k : ℕ) (l : List Bool), k ≤ l.length →
      (List.range k).foldl (fun acc c => setIdx acc c (f c)) l
        = (List.range k).map f ++ l.drop k := by
  intro k
  induction k with
  | zero => intro l _; simp
  | succ n ih =>
    intro l hl
    rw [List.range_succ, List.foldl_append, ih l (Nat.le_of_succ_le hl)]
    simp only [List.foldl_cons, List.foldl_nil]
    have hnl : n < l.length := hl
    have hlen : n < ((List.range n).map f ++ l.drop n).length := by
      simp only [List.length_append, List.length_map, List.length_range,
        List.length_drop]
      omega
    rw [setIdx, if_pos hlen, List.drop_eq_getElem_cons hnl]
    have hA : ((List.range n).map f).length = n := by simp
    have hsa := set_append_len ((List.range n).map f) (l[n]) (l.drop (n + 1)) (f n)
    rw [hA] at hsa
    rw [hsa, List.map_append]
    simp

/-- The inner column loop expressed through `setCell`: when row `r`
exists in the matrix, the loop never throws and only rewrites row `r`. -/
theorem foldlM_setCell (f : ℕ → Bool) (r : ℕ) :
    ∀ (cols : List ℕ) (m : List (List Bool)) (rl : List Bool),
      m.get? r = some rl →
      (cols.foldlM (fun m' c => setCell m' r c (f c)) m : Except AnalyzerError _)
        = .ok (m.set r (cols.foldl (fun acc c => setIdx acc c (f c)) rl)) := by
  intro cols
  induction cols with
  | nil =>
    intro m rl h
    simp only [List.foldlM_nil, List.foldl_nil]
    rw [set_of_get?_eq_some m r rl h]
    rfl
  | cons c cs ih =>
    intro m rl h
    simp only [List.foldlM_cons, List.foldl_cons]
    have hstep : setCell m r c (f c) = .ok (m.set r (setIdx rl c (f c))) := by
      unfold setCell
      rw [h]
    rw [hstep]
    have hlt : r < m.length := lt_length_of_get?_eq_some m r rl h
    have hget : (m.set r (setIdx rl c (f c))).get? r = some (setIdx rl c (f c)) :=
      get?_set_self m r (setIdx rl c (f c)) hlt
    have hbind : ((Except.ok (m.set r (setIdx rl c (f c))) : Except AnalyzerError _) >>=
        fun m' => cs.foldlM (fun m'' c' => setCell m'' r c' (f c')) m') =
        cs.foldlM (fun m'' c' => setCell m'' r c' (f c'))
          (m.set r (setIdx rl c (f c))) := rfl
    rw [hbind, ih (m.set r (setIdx rl c (f c))) (setIdx rl c (f c)) hget,
      List.set_set]

/-- The full row-by-row loop: starting from the `R × C` matrix of
`false`s, processing the first `k` rows yields the first `k` rows of the
cell-value grid with the remaining rows untouched. -/
theorem foldlM_grid (f : ℕ → ℕ → Bool) (R C : ℕ) :
    ∀ k, k ≤ R →
      ((List.range k).foldlM (fun m row =>
          (List.range C).foldlM (fun m' col => setCell m' row col (f row col)) m)
        (List.replicate R (List.replicate C false)) : Except AnalyzerError _)
      = .ok ((List.range k).map (fun r => (List.range C).map (f r))
          ++ List.replicate (R - k) (List.replicate C false)) := by
  intro k
  induction k with
  | zero =>
    intro _
    simp only [List.range_zero, List.foldlM_nil, List.map_nil, List.nil_append,
      Nat.sub_zero]
    rfl
  | succ n ih =>
    intro hk
    rw [List.range_succ, List.foldlM_append, ih (Nat.le_of_succ_le hk)]
    have hrep : List.replicate (R - n) (List.replicate C false)
        = List.replicate C false :: List.replicate (R - (n + 1)) (List.replicate C false) := by
      have h1 : R - n = (R - (n + 1)) + 1 := by omega
      rw [h1, List.replicate_succ]
    have hAlen : ((List.range n).map (fun r => (List.range C).map (f r))).length = n := by
      simp
    have hget : (((List.range n).map (fun r => (List.range C).map (f r)))
        ++ List.replicate (R - n) (List.replicate C false)).get? n
        = some (List.replicate C false) := by
      have hg := get_append_len ((List.range n).map (fun r => (List.range C).map (f r)))
        (List.replicate C false)
        (List.replicate (R - (n + 1)) (List.replicate C false))
      rw [hAlen] at hg
      rw [hrep]
      exact hg
    have hinner := foldlM_setCell (f n) n (List.range C)
      (((List.range n).map (fun r => (List.range C).map (f r)))
        ++ List.replicate (R - n) (List.replicate C false))
      (List.replicate C false) hget
    have hrow : (List.range C).foldl
        (fun acc c => setIdx acc c (f n c)) (List.replicate C false)
        = (List.range C).map (f n) := by
      rw [foldl_setIdx_range (f n) C (List.replicate C false) (by simp)]
      simp
    have hset : (((List.range n).map (fun r => (List.range C).map (f r)))
        ++ List.replicate (R - n) (List.replicate C false)).set n
        ((List.range C).map (f n))
        = ((List.range n).map (fun r => (List.range C).map (f r)))
            ++ ((List.range C).map (f n))
            :: List.replicate (R - (n + 1)) (List.replicate C false) := by
      have hs := set_append_len ((List.range n).map (fun r => (List.range C).map (f r)))
        (List.replicate C false)
        (List.replicate (R - (n + 1)) (List.replicate C false))
        ((List.range C).map (f n))
      rw [hAlen] at hs
      rw [hrep]
      exact hs
    simp only [List.foldlM_cons, List.foldlM_nil]
    have hbind : ((Except.ok (((List.range n).map (fun r => (List.range C).map (f r)))
        ++ List.replicate (R - n) (List.replicate C false)) :
        Except AnalyzerError _) >>= fun m =>
          (List.range C).foldlM (fun m' col => setCell m' n col (f n col)) m >>= pure) =
        ((List.range C).foldlM (fun m' col => setCell m' n col (f n col))
          (((List.range n).map (fun r => (List.range C).map (f r)))
            ++ List.replicate (R - n) (List.replicate C false)) >>= pure) := rfl
    rw [hbind, hinner, hrow, hset]
    show Except.ok _ = _
    rw [List.map_append]
    simp

theorem jsToLength_natCast (n : ℕ) : jsToLength (n : ℚ) = n := by
  simp [jsToLength]

theorem iterCount_natCast (n : ℕ) : iterCount (n : ℚ) = n := by
  simp [iterCount]

/-- Central lemma: on a configuration whose `rows` and `columns` are the
positive integers the data model requires, a validated `analyzeFrame`
call succeeds and its matrix is exactly the `R × C` grid of cell
values. -/
theorem analyzeFrame_ok (now : ℤ) (img : ImageData) (cfg : FrameAnalyzerConfig)
    (R C : ℕ) (hR : cfg.rows = (R : ℚ)) (hC : cfg.columns = (C : ℚ))
    (hvalid : validateConfig cfg img = .ok ()) :
    analyzeFrame now img cfg = .ok {
      matrix := (List.range R).map (fun r => (List.range C).map (fun c =>
        cellValue img cfg.offsetX cfg.offsetY (cfg.windowWidth / cfg.columns)
          (cfg.windowHeight / cfg.rows) (cfg.threshold.getD 128) r c)),
      config := cfg, timestamp := now } := by
  unfold analyzeFrame
  rw [hvalid]
  simp only [hR, hC, jsToLength_natCast, iterCount_natCast]
  have := foldlM_grid (fun r c =>
    cellValue img cfg.offsetX cfg.offsetY (cfg.windowWidth / (C : ℚ))
      (cfg.windowHeight / (R : ℚ)) (cfg.threshold.getD 128) r c) R C R le_rfl
  rw [this]
  simp

/-! ### Validation facts -/

/-- A validated configuration satisfies all numeric constraints of the
first four checks. -/
theorem validateConfig_ok_elim (cfg : FrameAnalyzerConfig) (img : ImageData)
    (h : validateConfig cfg img = .ok ()) :
    0 ≤ cfg.offsetX ∧ 0 ≤ cfg.offsetY ∧ 0 < cfg.windowWidth ∧ 0 < cfg.windowHeight ∧
    0 < cfg.rows ∧ 0 < cfg.columns ∧
    cfg.offsetX + cfg.windowWidth ≤ (img.width : ℚ) ∧
    cfg.offsetY + cfg.windowHeight ≤ (img.height : ℚ) := by
  unfold validateConfig at h
  split_ifs at h with h1 h2 h3 h4
  push_neg at h1 h2 h3 h4
  exact ⟨h1.1, h1.2, h2.1, h2.2, h3.1, h3.2, h4.1, h4.2⟩

/-! ### Bounds on the sample points -/

/-- A cell-center sample coordinate is nonnegative when the offset is. -/
theorem sample_pos (o w : ℚ) (N i : ℕ) (ho : 0 ≤ o) (hw : 0 < w) (hi : i < N) :
    0 ≤ o + ((i : ℚ) + 0.5) * (w / N) := by
  have hN0 : (0 : ℚ) < N := by
    have : 0 < N := Nat.lt_of_le_of_lt (Nat.zero_le i) hi
    exact_mod_cast this
  have h3 : 0 < w / (N : ℚ) := div_pos hw hN0
  have h1 : (0 : ℚ) < (i : ℚ) + 0.5 := by positivity
  nlinarith

/-- A cell-center sample coordinate stays strictly below the far edge
of the sampling window. -/
theorem sample_lt (o w bound : ℚ) (N i : ℕ) (hi : i < N) (hw : 0 < w)
    (hb : o + w ≤ bound) : o + ((i : ℚ) + 0.5) * (w / N) < bound := by
  have hN0 : (0 : ℚ) < N := by
    have : 0 < N := Nat.lt_of_le_of_lt (Nat.zero_le i) hi
    exact_mod_cast this
  have h1 : (i : ℚ) + 0.5 < (N : ℚ) := by
    have h2 : (i : ℚ) + 1 ≤ (N : ℚ) := by exact_mod_cast hi
    linarith [show (0.5 : ℚ) < 1 by norm_num]
  have h3 : 0 < w / (N : ℚ) := div_pos hw hN0
  have h4 : ((i : ℚ) + 0.5) * (w / N) < (N : ℚ) * (w / N) :=
    mul_lt_mul_of_pos_right h1 h3
  have h5 : (N : ℚ) * (w / N) = w := by
    field_simp
  linarith

/-- For a validated integral configuration, the floors of both sample
coordinates of every visited cell land inside the buffer rectangle. -/
theorem sample_coords_bounds (img : ImageData) (cfg : FrameAnalyzerConfig)
    (R C : ℕ) (hR : cfg.rows = (R : ℚ)) (hC : cfg.columns = (C : ℚ))
    (hvalid : validateConfig cfg img = .ok ())
    (row col : ℕ) (hrow : row < R) (hcol : col < C) :
    0 ≤ ⌊cfg.offsetX + ((col : ℚ) + 0.5) * (cfg.windowWidth / cfg.columns)⌋ ∧
    ⌊cfg.offsetX + ((col : ℚ) + 0.5) * (cfg.windowWidth / cfg.columns)⌋ < (img.width : ℤ) ∧
    0 ≤ ⌊cfg.offsetY + ((row : ℚ) + 0.5) * (cfg.windowHeight / cfg.rows)⌋ ∧
    ⌊cfg.offsetY + ((row : ℚ) + 0.5) * (cfg.windowHeight / cfg.rows)⌋ < (img.height : ℤ) := by
  obtain ⟨hoX, hoY, hwW, hwH, hrows, hcols, hbX, hbY⟩ := validateConfig_ok_elim cfg img hvalid
  rw [hR, hC]
  refine ⟨?_, ?_, ?_, ?_⟩
  · exact Int.floor_nonneg.mpr (sample_pos cfg.offsetX cfg.windowWidth C col hoX hwW hcol)
  · rw [Int.floor_lt]
    push_cast
    exact sample_lt cfg.offsetX cfg.windowWidth (img.width : ℚ) C col hcol hwW hbX
  · exact Int.floor_nonneg.mpr (sample_pos cfg.offsetY cfg.windowHeight R row hoY hwH hrow)
  · rw [Int.floor_lt]
    push_cast
    exact sample_lt cfg.offsetY cfg.windowHeight (img.height : ℚ) R row hrow hwH hbY

/-- When both floor coordinates are nonnegative, `getPixelAt` reads
the three channels at the natural-number index without the negative
branch of `tget`. -/
theorem getPixelAt_in_bounds (img : ImageData) (x y : ℚ)
    (hx : 0 ≤ ⌊x⌋) (hy : 0 ≤ ⌊y⌋) :
    getPixelAt img x y =
      (img.data.getD ((⌊y⌋.toNat * img.width + ⌊x⌋.toNat) * 4) 0,
       img.data.getD ((⌊y⌋.toNat * img.width + ⌊x⌋.toNat) * 4 + 1) 0,
       img.data.getD ((⌊y⌋.toNat * img.width + ⌊x⌋.toNat) * 4 + 2) 0) := by
  obtain ⟨q, hq⟩ : ∃ q : ℕ, ⌊x⌋ = (q : ℤ) := ⟨⌊x⌋.toNat, (Int.toNat_of_nonneg hx).symm⟩
  obtain ⟨p, hp⟩ : ∃ p : ℕ, ⌊y⌋ = (p : ℤ) := ⟨⌊y⌋.toNat, (Int.toNat_of_nonneg hy).symm⟩
  simp only [getPixelAt, tget]
  rw [hp, hq]
  have h1 : ((p : ℤ) * (img.width : ℤ) + (q : ℤ)) * 4 + 1
      = (((p * img.width + q) * 4 + 1 : ℕ) : ℤ) := by push_cast; ring
  have h2 : ((p : ℤ) * (img.width : ℤ) + (q : ℤ)) * 4 + 2
      = (((p * img.width + q) * 4 + 2 : ℕ) : ℤ) := by push_cast; ring
  have h0 : ((p : ℤ) * (img.width : ℤ) + (q : ℤ)) * 4
      = (((p * img.width + q) * 4 : ℕ) : ℤ) := by push_cast; ring
  rw [h1, h2, h0]
  simp only [Int.natCast_nonneg, Int.toNat_natCast]
  simp

/-- Inside the buffer rectangle, the loop body of `analyzeFrame`
computes exactly the spec-side cell formula. -/
theorem cellValue_eq_specCell (img : ImageData) (cfg : FrameAnalyzerConfig)
    (R C : ℕ) (hR : cfg.rows = (R : ℚ)) (hC : cfg.columns = (C : ℚ))
    (hvalid : validateConfig cfg img = .ok ())
    (row col : ℕ) (hrow : row < R) (hcol : col < C) :
    cellValue img cfg.offsetX cfg.offsetY (cfg.windowWidth / cfg.columns)
      (cfg.windowHeight / cfg.rows) (cfg.threshold.getD 128) row col
      = specCell img cfg row col := by
  obtain ⟨hx0, hxw, hy0, hyh⟩ :=
    sample_coords_bounds img cfg R C hR hC hvalid row col hrow hcol
  have hpix := getPixelAt_in_bounds img
    (cfg.offsetX + ((col : ℚ) + 0.5) * (cfg.windowWidth / cfg.columns))
    (cfg.offsetY + ((row : ℚ) + 0.5) * (cfg.windowHeight / cfg.rows))
    hx0 hy0
  simp only [cellValue, specCell, calculateBrightness]
  rw [hpix]

/-! ### Reading the uniform test buffer -/

theorem flatten_replicate_length {α : Type} (n : ℕ) (blk : List α) :
    ((List.replicate n blk).flatten).length = n * blk.length := by
  induction n with
  | zero => simp
  | succ m ih =>
    rw [List.replicate_succ, List.flatten_cons, List.length_append, ih]
    ring

theorem flatten_replicate_getD (blk : List ℕ) :
    ∀ (n p k : ℕ), p < n → k < blk.length →
      ((List.replicate n blk).flatten).getD (blk.length * p + k) 0 = blk.getD k 0 := by
  intro n
  induction n with
  | zero => intro p k hp _; exact absurd hp (Nat.not_lt_zero p)
  | succ m ih =>
    intro p k hp hk
    rw [List.replicate_succ, List.flatten_cons]
    cases p with
    | zero =>
      rw [Nat.mul_zero, Nat.zero_add]
      exact List.getD_append blk _ 0 k hk
    | succ j =>
      have hidx : blk.length * (j + 1) + k = blk.length + (blk.length * j + k) := by ring
      rw [hidx, List.getD_append_right blk _ 0 _ (Nat.le_add_right _ _),
        Nat.add_sub_cancel_left]
      exact ih j k (Nat.lt_of_succ_lt_succ hp) hk

theorem createTestImageData_reads (w h v : ℕ) (hv : v ≤ 255) (pos : ℕ)
    (hpos : pos < w * h) :
    (createTestImageData w h v).data.getD (pos * 4) 0 = v ∧
    (createTestImageData w h v).data.getD (pos * 4 + 1) 0 = v ∧
    (createTestImageData w h v).data.getD (pos * 4 + 2) 0 = v := by
  have hmin : min v 255 = v := min_eq_left hv
  have h0 := flatten_replicate_getD [min v 255, min v 255, min v 255, 255]
    (w * h) pos 0 hpos (by simp)
  have h1 := flatten_replicate_getD [min v 255, min v 255, min v 255, 255]
    (w * h) pos 1 hpos (by simp)
  have h2 := flatten_replicate_getD [min v 255, min v 255, min v 255, 255]
    (w * h) pos 2 hpos (by simp)
  refine ⟨?_, ?_, ?_⟩
  · rw [Nat.mul_comm pos 4]
    simpa [createTestImageData, hmin] using h0
  · rw [Nat.mul_comm pos 4]
    simpa [createTestImageData, hmin] using h1
  · rw [Nat.mul_comm pos 4]
    simpa [createTestImageData, hmin] using h2

theorem pix_pos_lt (w h px py : ℕ) (hx : px < w) (hy : py < h) :
    py * w + px < w * h := by
  calc py * w + px < py * w + w := by omega
  _ = (py + 1) * w := by ring
  _ ≤ h * w := Nat.mul_le_mul_right w hy
  _ = w * h := Nat.mul_comm h w

set_option maxRecDepth 8192 in
/-- On a uniform buffer with channel value `v ≤ 255`, every visited
cell of a validated integral configuration evaluates to
`v ≥ threshold`. -/
theorem cellValue_uniform (w h v : ℕ) (hv : v ≤ 255) (cfg : FrameAnalyzerConfig)
    (R C : ℕ) (hR : cfg.rows = (R : ℚ)) (hC : cfg.columns = (C : ℚ))
    (hvalid : validateConfig cfg (createTestImageData w h v) = .ok ())
    (row col : ℕ) (hrow : row < R) (hcol : col < C) :
    cellValue (createTestImageData w h v) cfg.offsetX cfg.offsetY
      (cfg.windowWidth / cfg.columns) (cfg.windowHeight / cfg.rows)
      (cfg.threshold.getD 128) row col
      = decide ((v : ℚ) ≥ cfg.threshold.getD 128) := by
  obtain ⟨hx0, hxw, hy0, hyh⟩ := sample_coords_bounds (createTestImageData w h v)
    cfg R C hR hC hvalid row col hrow hcol
  have hpix := getPixelAt_in_bounds (createTestImageData w h v)
    (cfg.offsetX + ((col : ℚ) + 0.5) * (cfg.windowWidth / cfg.columns))
    (cfg.offsetY + ((row : ℚ) + 0.5) * (cfg.windowHeight / cfg.rows))
    hx0 hy0
  have hw : (createTestImageData w h v).width = w := rfl
  have hh : (createTestImageData w h v).height = h := rfl
  rw [hw] at hxw
  rw [hh] at hyh
  have hpx : (⌊cfg.offsetX + ((col : ℚ) + 0.5) * (cfg.windowWidth / cfg.columns)⌋).toNat < w := by
    omega
  have hpy : (⌊cfg.offsetY + ((row : ℚ) + 0.5) * (cfg.windowHeight / cfg.rows)⌋).toNat < h := by
    omega
  have hpos := pix_pos_lt w h _ _ hpx hpy
  obtain ⟨e0, e1, e2⟩ := createTestImageData_reads w h v hv
    ((⌊cfg.offsetY + ((row : ℚ) + 0.5) * (cfg.windowHeight / cfg.rows)⌋).toNat * w
      + (⌊cfg.offsetX + ((col : ℚ) + 0.5) * (cfg.windowWidth / cfg.columns)⌋).toNat) hpos
  simp only [cellValue, calculateBrightness]
  rw [hpix, hw]
  rw [e0, e1, e2]
  have hsum : (0.2126 : ℚ) * v + 0.7152 * v + 0.0722 * v = v := by ring
  show decide ((0.2126 : ℚ) * v + 0.7152 * v + 0.0722 * v ≥ cfg.threshold.getD 128)
    = decide ((v : ℚ) ≥ cfg.threshold.getD 128)
  rw [hsum]

theorem getD_map_range {α : Type} (f : ℕ → α) (d : α) (n m : ℕ) (h : n < m) :
    ((List.range m).map f).getD n d = f n := by
  simp [List.getD_eq_getElem?_getD, List.getElem?_map, List.getElem?_range, h]

/-! ### Concrete fixtures for the witness theorems -/

def imgW : ImageData := createTestImageData 4 4 200

def imgW2 : ImageData := createTestImageData 4 4 7

def cfgW : FrameAnalyzerConfig :=
  { offsetX := 0, offsetY := 0, windowWidth := 4, windowHeight := 4,
    rows := 2, columns := 2, threshold := some 128 }

def cfgBad : FrameAnalyzerConfig :=
  { offsetX := -1, offsetY := 0, windowWidth := 4, windowHeight := 4,
    rows := 2, columns := 2, threshold := some 128 }

def imgC10 : ImageData := createTestImageData 10 10 200

def cfgRows25 : FrameAnalyzerConfig :=
  { offsetX := 0, offsetY := 0, windowWidth := 10, windowHeight := 10,
    rows := 2.5, columns := 2, threshold := some 128 }

def cfgCols25 : FrameAnalyzerConfig :=
  { offsetX := 0, offsetY := 0, windowWidth := 10, windowHeight := 10,
    rows := 2, columns := 2.5, threshold := some 128 }

theorem except_bind_ok {ε α β : Type} (x : α) (f : α → Except ε β) :
    (Except.ok x : Except ε α) >>= f = f x := rfl

theorem except_bind_error {ε α β : Type} (e : ε) (f : α → Except ε β) :
    (Except.error e : Except ε α) >>= f = Except.error e := rfl

/-- After a successful validation, `analyzeFrame` is its sampling loop
followed by result construction. -/
theorem analyzeFrame_of_valid (now : ℤ) (img : ImageData) (cfg : FrameAnalyzerConfig)
    (h : validateConfig cfg img = .ok ()) :
    analyzeFrame now img cfg =
      match (List.range (iterCount cfg.rows)).foldlM (fun m row =>
          (List.range (iterCount cfg.columns)).foldlM (fun m' col =>
            setCell m' row col (cellValue img cfg.offsetX cfg.offsetY
              (cfg.windowWidth / cfg.columns) (cfg.windowHeight / cfg.rows)
              (cfg.threshold.getD 128) row col)) m)
        (List.replicate (jsToLength cfg.rows) (List.replicate (jsToLength cfg.columns) false)) with
      | .error e => .error e
      | .ok matrix => .ok { matrix := matrix, config := cfg, timestamp := now } := by
  unfold analyzeFrame
  rw [h]

theorem cfgW_valid : validateConfig cfgW imgW = .ok () := by
  unfold validateConfig
  norm_num [cfgW, imgW, createTestImageData]

theorem cfgBad_error : validateConfig cfgBad imgW = .error .invalidOffset := by
  unfold validateConfig
  norm_num [cfgBad, imgW, createTestImageData]

/-! ### Claim theorems -/

/-- Claim C1: for every pixel buffer and every configuration that
passes validation (with `rows` and `columns` the positive integers `R`
and `C` required by the data model), `analyzeFrame` succeeds and cell
`(r, c)` of the returned matrix is true iff the relative luminance
`0.2126*R + 0.7152*G + 0.0722*B` of the single pixel at the floor of
the cell-center sample point is `>=` the configured threshold (128 when
absent), as stated by the spec-side formula `specCell`; the comparison
is inclusive and the alpha channel is never read. -/
theorem analyzeFrame_cell_spec (now : ℤ) (img : ImageData)
    (cfg : FrameAnalyzerConfig) (R C : ℕ)
    (hR : cfg.rows = (R : ℚ)) (hC : cfg.columns = (C : ℚ))
    (hvalid : validateConfig cfg img = .ok ()) :
    ∃ res, analyzeFrame now img cfg = .ok res ∧
      ∀ r, r < R → ∀ c, c < C →
        (res.matrix.getD r []).getD c false = specCell img cfg r c := by
  refine ⟨_, analyzeFrame_ok now img cfg R C hR hC hvalid, ?_⟩
  intro r hr c hc
  rw [getD_map_range _ _ r R hr, getD_map_range _ _ c C hc]
  exact cellValue_eq_specCell img cfg R C hR hC hvalid r c hr hc

theorem analyzeFrame_cell_spec_witness :
    ∃ res, analyzeFrame 0 imgW cfgW = .ok res ∧
      ∀ r, r < 2 → ∀ c, c < 2 →
        (res.matrix.getD r []).getD c false = specCell imgW cfgW r c :=
  analyzeFrame_cell_spec 0 imgW cfgW 2 2 (by norm_num [cfgW]) (by norm_num [cfgW])
    cfgW_valid

/-- Claim C2: `validateConfig` performs its five checks in the fixed
source order, the first failing check determining the error, and a
validation error is exactly what the enclosing `analyzeFrame` call
fails with. -/
theorem validateConfig_order (cfg : FrameAnalyzerConfig) (img : ImageData) (now : ℤ) :
    (validateConfig cfg img = .error .invalidOffset ↔
      (cfg.offsetX < 0 ∨ cfg.offsetY < 0)) ∧
    (validateConfig cfg img = .error .invalidWindowSize ↔
      (¬(cfg.offsetX < 0 ∨ cfg.offsetY < 0) ∧
        (cfg.windowWidth ≤ 0 ∨ cfg.windowHeight ≤ 0))) ∧
    (validateConfig cfg img = .error .invalidMatrixSize ↔
      (¬(cfg.offsetX < 0 ∨ cfg.offsetY < 0) ∧
        ¬(cfg.windowWidth ≤ 0 ∨ cfg.windowHeight ≤ 0) ∧
        (cfg.rows ≤ 0 ∨ cfg.columns ≤ 0))) ∧
    (validateConfig cfg img = .error .windowOutOfBounds ↔
      (¬(cfg.offsetX < 0 ∨ cfg.offsetY < 0) ∧
        ¬(cfg.windowWidth ≤ 0 ∨ cfg.windowHeight ≤ 0) ∧
        ¬(cfg.rows ≤ 0 ∨ cfg.columns ≤ 0) ∧
        (cfg.offsetX + cfg.windowWidth > (img.width : ℚ) ∨
          cfg.offsetY + cfg.windowHeight > (img.height : ℚ)))) ∧
    (validateConfig cfg img = .error .invalidThreshold ↔
      (¬(cfg.offsetX < 0 ∨ cfg.offsetY < 0) ∧
        ¬(cfg.windowWidth ≤ 0 ∨ cfg.windowHeight ≤ 0) ∧
        ¬(cfg.rows ≤ 0 ∨ cfg.columns ≤ 0) ∧
        ¬(cfg.offsetX + cfg.windowWidth > (img.width : ℚ) ∨
          cfg.offsetY + cfg.windowHeight > (img.height : ℚ)) ∧
        ∃ t, cfg.threshold = some t ∧ (t < 0 ∨ t > 255))) ∧
    (∀ e, validateConfig cfg img = .error e → analyzeFrame now img cfg = .error e) := by
  have hprop : ∀ e, validateConfig cfg img = .error e →
      analyzeFrame now img cfg = .error e := by
    intro e he
    unfold analyzeFrame
    rw [he]
  refine ⟨?_, ?_, ?_, ?_, ?_, hprop⟩ <;>
    cases hth : cfg.threshold <;>
      simp only [validateConfig, hth] <;>
        split_ifs with h1 h2 h3 h4 <;> simp_all

theorem validateConfig_order_witness :
    analyzeFrame 0 imgW cfgBad = .error .invalidOffset :=
  (validateConfig_order cfgBad imgW 0).2.2.2.2.2 .invalidOffset cfgBad_error

/-- Claim C3: for every buffer and validated configuration with
integral grid dimensions `R × C`, the returned matrix has exactly `R`
rows and every row has exactly `C` entries. -/
theorem analyzeFrame_matrix_shape (now : ℤ) (img : ImageData)
    (cfg : FrameAnalyzerConfig) (R C : ℕ)
    (hR : cfg.rows = (R : ℚ)) (hC : cfg.columns = (C : ℚ))
    (hvalid : validateConfig cfg img = .ok ()) :
    ∃ res, analyzeFrame now img cfg = .ok res ∧
      res.matrix.length = R ∧ ∀ rowL ∈ res.matrix, rowL.length = C := by
  refine ⟨_, analyzeFrame_ok now img cfg R C hR hC hvalid, by simp, ?_⟩
  intro rowL hmem
  obtain ⟨r, _, rfl⟩ := List.mem_map.mp hmem
  simp

theorem analyzeFrame_matrix_shape_witness :
    ∃ res, analyzeFrame 0 imgW cfgW = .ok res ∧
      res.matrix.length = 2 ∧ ∀ rowL ∈ res.matrix, rowL.length = 2 :=
  analyzeFrame_matrix_shape 0 imgW cfgW 2 2 (by norm_num [cfgW]) (by norm_num [cfgW])
    cfgW_valid

/-- Claim C4 (code bug): `createDefaultConfig 640 480` does not return
the configuration `offsetX = 0, offsetY = 0, windowWidth = 640,
windowHeight = 480` that the spec and the unit test demand; the source
ignores its arguments and returns a hardcoded window. -/
theorem createDefaultConfig_hardcoded :
    createDefaultConfig 640 480 =
      { offsetX := 236, offsetY := 112, windowWidth := 168, windowHeight := 224,
        rows := 64, columns := 42, threshold := some 128 } ∧
    (createDefaultConfig 640 480).offsetX ≠ 0 ∧
    (createDefaultConfig 640 480).offsetY ≠ 0 ∧
    (createDefaultConfig 640 480).windowWidth ≠ 640 ∧
    (createDefaultConfig 640 480).windowHeight ≠ 480 := by
  refine ⟨rfl, ?_, ?_, ?_, ?_⟩ <;> norm_num [createDefaultConfig]

/-- Claim C5: the configuration returned by `createDefaultConfig 640
480` passes all five validation checks against a 640 × 480 buffer, and
`analyzeFrame` on such a buffer with that configuration succeeds. -/
theorem createDefaultConfig_passes_validation (now : ℤ) (d : List ℕ)
    (_hd : d.length = 640 * 480 * 4) :
    validateConfig (createDefaultConfig 640 480) ⟨640, 480, d⟩ = .ok () ∧
    ∃ res, analyzeFrame now ⟨640, 480, d⟩ (createDefaultConfig 640 480) = .ok res := by
  have hval : validateConfig (createDefaultConfig 640 480) ⟨640, 480, d⟩ = .ok () := by
    unfold validateConfig
    norm_num [createDefaultConfig]
  exact ⟨hval, _, analyzeFrame_ok now ⟨640, 480, d⟩ (createDefaultConfig 640 480)
    64 42 (by norm_num [createDefaultConfig]) (by norm_num [createDefaultConfig]) hval⟩

theorem createDefaultConfig_passes_validation_witness :
    validateConfig (createDefaultConfig 640 480)
      ⟨640, 480, List.replicate (640 * 480 * 4) 0⟩ = .ok () ∧
    ∃ res, analyzeFrame 0 ⟨640, 480, List.replicate (640 * 480 * 4) 0⟩
      (createDefaultConfig 640 480) = .ok res :=
  createDefaultConfig_passes_validation 0 (List.replicate (640 * 480 * 4) 0)
    (List.length_replicate _ _)

/-- Claim C6: when validation fails, `analyzeFrame` fails atomically
with that validation error: no result is produced, and the outcome does
not depend on the pixel data (no pixel is sampled) nor on the clock. -/
theorem analyzeFrame_fails_atomically (now now' : ℤ) (img img' : ImageData)
    (cfg : FrameAnalyzerConfig) (e : AnalyzerError)
    (hw : img'.width = img.width) (hh : img'.height = img.height)
    (hfail : validateConfig cfg img = .error e) :
    analyzeFrame now img cfg = .error e ∧ analyzeFrame now' img' cfg = .error e := by
  have hsame : validateConfig cfg img' = validateConfig cfg img := by
    unfold validateConfig
    rw [hw, hh]
  constructor
  · unfold analyzeFrame
    rw [hfail]
  · unfold analyzeFrame
    rw [hsame, hfail]

theorem analyzeFrame_fails_atomically_witness :
    analyzeFrame 0 imgW cfgBad = .error .invalidOffset ∧
    analyzeFrame 1 imgW2 cfgBad = .error .invalidOffset :=
  analyzeFrame_fails_atomically 0 1 imgW imgW2 cfgBad .invalidOffset rfl rfl cfgBad_error

/-- Claim C7: on a uniform buffer whose R, G and B channels all equal
`v`, every cell of a validated integral analysis is true iff
`0.2126v + 0.7152v + 0.0722v >= threshold`, and that condition equals
`v >= threshold` because the three coefficients sum to 1. -/
theorem analyzeFrame_uniform_buffer (now : ℤ) (w h v : ℕ) (hv : v ≤ 255)
    (cfg : FrameAnalyzerConfig) (R C : ℕ)
    (hR : cfg.rows = (R : ℚ)) (hC : cfg.columns = (C : ℚ))
    (hvalid : validateConfig cfg (createTestImageData w h v) = .ok ()) :
    ((0.2126 : ℚ) * v + 0.7152 * v + 0.0722 * v = (v : ℚ)) ∧
    ∃ res, analyzeFrame now (createTestImageData w h v) cfg = .ok res ∧
      ∀ rowL ∈ res.matrix, ∀ cell ∈ rowL,
        (cell = true ↔ (0.2126 : ℚ) * v + 0.7152 * v + 0.0722 * v
          ≥ cfg.threshold.getD 128) := by
  have hsum : (0.2126 : ℚ) * v + 0.7152 * v + 0.0722 * v = (v : ℚ) := by ring
  refine ⟨hsum, _, analyzeFrame_ok now _ cfg R C hR hC hvalid, ?_⟩
  intro rowL hmem cell hcell
  obtain ⟨r, hr, rfl⟩ := List.mem_map.mp hmem
  obtain ⟨c, hc, rfl⟩ := List.mem_map.mp hcell
  rw [List.mem_range] at hr hc
  rw [cellValue_uniform w h v hv cfg R C hR hC hvalid r c hr hc, hsum]
  simp [ge_iff_le]

theorem analyzeFrame_uniform_buffer_witness :
    ((0.2126 : ℚ) * (200 : ℕ) + 0.7152 * (200 : ℕ) + 0.0722 * (200 : ℕ)
      = ((200 : ℕ) : ℚ)) ∧
    ∃ res, analyzeFrame 0 (createTestImageData 4 4 200) cfgW = .ok res ∧
      ∀ rowL ∈ res.matrix, ∀ cell ∈ rowL,
        (cell = true ↔ (0.2126 : ℚ) * (200 : ℕ) + 0.7152 * (200 : ℕ)
          + 0.0722 * (200 : ℕ) ≥ cfgW.threshold.getD 128) :=
  analyzeFrame_uniform_buffer 0 4 4 200 (by norm_num) cfgW 2 2
    (by norm_num [cfgW]) (by norm_num [cfgW]) cfgW_valid

/-- Claim C8: the matrix (and echoed configuration) of `analyzeFrame`
do not depend on the clock value: two invocations on the same buffer
and configuration agree except possibly in the timestamp, and the
analyzer keeps no state between calls (it is a pure function of its
arguments). -/
theorem analyzeFrame_deterministic (now₁ now₂ : ℤ) (img : ImageData)
    (cfg : FrameAnalyzerConfig) :
    Except.map FrameAnalysisResult.matrix (analyzeFrame now₁ img cfg) =
      Except.map FrameAnalysisResult.matrix (analyzeFrame now₂ img cfg) ∧
    Except.map FrameAnalysisResult.config (analyzeFrame now₁ img cfg) =
      Except.map FrameAnalysisResult.config (analyzeFrame now₂ img cfg) := by
  constructor <;>
  · simp only [analyzeFrame]
    cases validateConfig cfg img with
    | error e => rfl
    | ok u =>
      cases u
      cases (List.range (iterCount cfg.rows)).foldlM (fun m row =>
          (List.range (iterCount cfg.columns)).foldlM (fun m' col =>
            setCell m' row col
              (cellValue img cfg.offsetX cfg.offsetY
                (cfg.windowWidth / cfg.columns) (cfg.windowHeight / cfg.rows)
                (cfg.threshold.getD 128) row col)) m)
          (List.replicate (jsToLength cfg.rows)
            (List.replicate (jsToLength cfg.columns) false)) with
      | error e => rfl
      | ok m => rfl

/-- Claim C9: for every buffer obeying the RGBA length invariant and
every validated integral configuration, each visited sample point has
nonnegative floor coordinates strictly inside the buffer rectangle, so
all three channel reads of `getPixelAt` land inside `data` and the
`?? 0` fallback is never used. -/
theorem analyzeFrame_sampling_in_bounds (img : ImageData)
    (cfg : FrameAnalyzerConfig) (R C : ℕ)
    (hR : cfg.rows = (R : ℚ)) (hC : cfg.columns = (C : ℚ))
    (hlen : img.data.length = img.width * img.height * 4)
    (hvalid : validateConfig cfg img = .ok ())
    (row col : ℕ) (hrow : row < R) (hcol : col < C) :
    0 ≤ ⌊cfg.offsetX + ((col : ℚ) + 0.5) * (cfg.windowWidth / cfg.columns)⌋ ∧
    ⌊cfg.offsetX + ((col : ℚ) + 0.5) * (cfg.windowWidth / cfg.columns)⌋ < (img.width : ℤ) ∧
    0 ≤ ⌊cfg.offsetY + ((row : ℚ) + 0.5) * (cfg.windowHeight / cfg.rows)⌋ ∧
    ⌊cfg.offsetY + ((row : ℚ) + 0.5) * (cfg.windowHeight / cfg.rows)⌋ < (img.height : ℤ) ∧
    ((⌊cfg.offsetY + ((row : ℚ) + 0.5) * (cfg.windowHeight / cfg.rows)⌋.toNat * img.width
      + ⌊cfg.offsetX + ((col : ℚ) + 0.5) * (cfg.windowWidth / cfg.columns)⌋.toNat) * 4 + 2
      < img.data.length) := by
  obtain ⟨hx0, hxw, hy0, hyh⟩ :=
    sample_coords_bounds img cfg R C hR hC hvalid row col hrow hcol
  refine ⟨hx0, hxw, hy0, hyh, ?_⟩
  have hpx : (⌊cfg.offsetX + ((col : ℚ) + 0.5) * (cfg.windowWidth / cfg.columns)⌋).toNat
      < img.width := by omega
  have hpy : (⌊cfg.offsetY + ((row : ℚ) + 0.5) * (cfg.windowHeight / cfg.rows)⌋).toNat
      < img.height := by omega
  have hpos := pix_pos_lt img.width img.height _ _ hpx hpy
  have key : ∀ a b : ℕ, a < b → a * 4 + 2 < b * 4 := by
    intro a b hab
    omega
  rw [hlen]
  exact key _ _ hpos

theorem analyzeFrame_sampling_in_bounds_witness :
    0 ≤ ⌊cfgW.offsetX + (((0 : ℕ) : ℚ) + 0.5) * (cfgW.windowWidth / cfgW.columns)⌋ ∧
    ⌊cfgW.offsetX + (((0 : ℕ) : ℚ) + 0.5) * (cfgW.windowWidth / cfgW.columns)⌋ < (imgW.width : ℤ) ∧
    0 ≤ ⌊cfgW.offsetY + (((0 : ℕ) : ℚ) + 0.5) * (cfgW.windowHeight / cfgW.rows)⌋ ∧
    ⌊cfgW.offsetY + (((0 : ℕ) : ℚ) + 0.5) * (cfgW.windowHeight / cfgW.rows)⌋ < (imgW.height : ℤ) ∧
    ((⌊cfgW.offsetY + (((0 : ℕ) : ℚ) + 0.5) * (cfgW.windowHeight / cfgW.rows)⌋.toNat * imgW.width
      + ⌊cfgW.offsetX + (((0 : ℕ) : ℚ) + 0.5) * (cfgW.windowWidth / cfgW.columns)⌋.toNat) * 4 + 2
      < imgW.data.length) :=
  analyzeFrame_sampling_in_bounds imgW cfgW 2 2 (by norm_num [cfgW]) (by norm_num [cfgW])
    (by simp [imgW, createTestImageData, flatten_replicate_length]) cfgW_valid
    0 0 (by norm_num) (by norm_num)

/-- Claim C10 counterexample: at the claim's own example input
(rows = 2.5, all other fields valid) the configuration passes
validation, but `analyzeFrame` does not succeed: the row loop runs
⌈2.5⌉ = 3 times while the matrix was created with only
⌊2.5⌋ = 2 rows, so the assignment to the missing third row throws a
TypeError instead of returning a matrix. -/
theorem analyzeFrame_nonint_rows_typeError :
    validateConfig cfgRows25 imgC10 = .ok () ∧
    analyzeFrame 0 imgC10 cfgRows25 = .error .typeError := by
  have hval : validateConfig cfgRows25 imgC10 = .ok () := by
    unfold validateConfig
    norm_num [cfgRows25, imgC10, createTestImageData]
  refine ⟨hval, ?_⟩
  rw [analyzeFrame_of_valid 0 imgC10 cfgRows25 hval]
  have hceil : (⌈(2.5 : ℚ)⌉ : ℤ) = 3 := by
    rw [Int.ceil_eq_iff]
    constructor <;> norm_num
  have hfl : (⌊(2.5 : ℚ)⌋ : ℤ) = 2 := by norm_num
  have hiR : iterCount cfgRows25.rows = 3 := by
    simp [iterCount, cfgRows25, hceil]
  have hiC : iterCount cfgRows25.columns = 2 := by
    simp [iterCount, cfgRows25]
  have hjR : jsToLength cfgRows25.rows = 2 := by
    simp [jsToLength, cfgRows25, hfl]
  have hjC : jsToLength cfgRows25.columns = 2 := by
    simp [jsToLength, cfgRows25]
  rw [hiR, hiC, hjR, hjC]
  have hr3 : List.range 3 = [0, 1, 2] := rfl
  have hr2 : List.range 2 = [0, 1] := rfl
  have hrep : List.replicate 2 (List.replicate 2 false)
      = [[false, false], [false, false]] := rfl
  rw [hr3, hr2, hrep]
  simp [List.foldlM_cons, List.foldlM_nil, except_bind_ok, except_bind_error,
    setCell, setIdx]

/-- Claim C10 amended: validation indeed never checks integrality, but
the non-failing behaviour belongs to non-integer columns: with
columns = 2.5 (rows = 2) the call succeeds and returns ⌊rows⌋ = 2 rows
that each grow to ⌈columns⌉ = 3 entries, while with rows = 2.5 the call
passes validation and then throws a TypeError. -/
theorem analyzeFrame_nonint_behavior :
    validateConfig cfgCols25 imgC10 = .ok () ∧
    (∃ res, analyzeFrame 0 imgC10 cfgCols25 = .ok res ∧
      res.matrix.length = 2 ∧ ∀ rl ∈ res.matrix, rl.length = 3) ∧
    validateConfig cfgRows25 imgC10 = .ok () ∧
    analyzeFrame 0 imgC10 cfgRows25 = .error .typeError := by
  have hceil : (⌈(2.5 : ℚ)⌉ : ℤ) = 3 := by
    rw [Int.ceil_eq_iff]
    constructor <;> norm_num
  have hfl : (⌊(2.5 : ℚ)⌋ : ℤ) = 2 := by norm_num
  have hr3 : List.range 3 = [0, 1, 2] := rfl
  have hr2 : List.range 2 = [0, 1] := rfl
  have hrep : List.replicate 2 (List.replicate 2 false)
      = [[false, false], [false, false]] := rfl
  have hvalC : validateConfig cfgCols25 imgC10 = .ok () := by
    unfold validateConfig
    norm_num [cfgCols25, imgC10, createTestImageData]
  have hvalR : validateConfig cfgRows25 imgC10 = .ok () := by
    unfold validateConfig
    norm_num [cfgRows25, imgC10, createTestImageData]
  refine ⟨hvalC, ?_, hvalR, ?_⟩
  · rw [analyzeFrame_of_valid 0 imgC10 cfgCols25 hvalC]
    have hiR : iterCount cfgCols25.rows = 2 := by
      simp [iterCount, cfgCols25]
    have hiC : iterCount cfgCols25.columns = 3 := by
      simp [iterCount, cfgCols25, hceil]
    have hjR : jsToLength cfgCols25.rows = 2 := by
      simp [jsToLength, cfgCols25]
    have hjC : jsToLength cfgCols25.columns = 2 := by
      simp [jsToLength, cfgCols25, hfl]
    rw [hiR, hiC, hjR, hjC, hr3, hr2, hrep]
    simp [List.foldlM_cons, List.foldlM_nil, except_bind_ok, except_bind_error,
      setCell, setIdx]
  · rw [analyzeFrame_of_valid 0 imgC10 cfgRows25 hvalR]
    have hiR : iterCount cfgRows25.rows = 3 := by
      simp [iterCount, cfgRows25, hceil]
    have hiC : iterCount cfgRows25.columns = 2 := by
      simp [iterCount, cfgRows25]
    have hjR : jsToLength cfgRows25.rows = 2 := by
      simp [jsToLength, cfgRows25, hfl]
    have hjC : jsToLength cfgRows25.columns = 2 := by
      simp [jsToLength, cfgRows25]
    rw [hiR, hiC, hjR, hjC, hr3, hr2, hrep]
    simp [List.foldlM_cons, List.foldlM_nil, except_bind_ok, except_bind_error,
      setCell, setIdx]

end FrameGrabber
